import Mathlib

/-!
Verification of the ThreatTrace adaptive web-application defense platform.

This file gives a shallow embedding, in Lean 4, of the parts of the source
that the checked claims are about:

* the Gatekeeper inspection engine (`src/gatekeeper/api/main.py` and
  `src/gatekeeper/ml/anomaly_detector.py`): WAF rule matching, combined
  scoring, the behavioral classifier, and the per-session history window;
* the Switch session router (`src/switch/api/main.py`): fingerprinting,
  pinning, and the routing decision with lazy pin expiry;
* the Sentinel analysis engine (`src/sentinel/api/main.py` and
  `src/sentinel/simulator/payload_simulator.py`): the policy orchestrator,
  the rule-apply operation, and detonation severity;
* the evidence builder and retriever (`src/shared/evidence/builder.py`,
  `src/shared/evidence/retriever.py`, `src/shared/storage/minio_client.py`):
  per-object and package checksums and download-time validation.

Machine integers and floats are embedded as `Nat` / `ℚ`; `hashlib.sha256`
is embedded as an executable SHA-256 over byte lists, so that fingerprints
and package checksums can be evaluated on concrete inputs inside proofs.
Stateful endpoints are embedded as explicit state-passing functions over
association lists, which model Python's insertion-ordered dicts.
-/

/-! ## SHA-256, executable (embeds `hashlib.sha256(...).hexdigest()`) -/

namespace Sha256

def mask32 : Nat := 4294967295

def add32 (a b : Nat) : Nat := (a + b) % 4294967296

def rotr (n x : Nat) : Nat :=
  Nat.lor (Nat.shiftRight x n) (Nat.land (Nat.shiftLeft x (32 - n)) mask32)

def xor3 (a b c : Nat) : Nat := Nat.xor (Nat.xor a b) c

def s0 (x : Nat) : Nat := xor3 (rotr 7 x) (rotr 18 x) (Nat.shiftRight x 3)

def s1 (x : Nat) : Nat := xor3 (rotr 17 x) (rotr 19 x) (Nat.shiftRight x 10)

def b0 (x : Nat) : Nat := xor3 (rotr 2 x) (rotr 13 x) (rotr 22 x)

def b1 (x : Nat) : Nat := xor3 (rotr 6 x) (rotr 11 x) (rotr 25 x)

def ch (x y z : Nat) : Nat := Nat.xor (Nat.land x y) (Nat.land (Nat.xor x mask32) z)

def maj (x y z : Nat) : Nat :=
  Nat.xor (Nat.xor (Nat.land x y) (Nat.land x z)) (Nat.land y z)

def K : List Nat :=
  [1116352408, 1899447441, 3049323471, 3921009573, 961987163,
   1508970993, 2453635748, 2870763221, 3624381080, 310598401,
   607225278, 1426881987, 1925078388, 2162078206, 2614888103,
   3248222580, 3835390401, 4022224774, 264347078, 604807628,
   770255983, 1249150122, 1555081692, 1996064986, 2554220882,
   2821834349, 2952996808, 3210313671, 3336571891, 3584528711,
   113926993, 338241895, 666307205, 773529912, 1294757372,
   1396182291, 1695183700, 1986661051, 2177026350, 2456956037,
   2730485921, 2820302411, 3259730800, 3345764771, 3516065817,
   3600352804, 4094571909, 275423344, 430227734, 506948616,
   659060556, 883997877, 958139571, 1322822218, 1537002063,
   1747873779, 1955562222, 2024104815, 2227730452, 2361852424,
   2428436474, 2756734187, 3204031479, 3329325298]

/-- The running hash state, eight 32-bit words. -/
structure Hash8 where
  ha : Nat
  hb : Nat
  hc : Nat
  hd : Nat
  he : Nat
  hf : Nat
  hg : Nat
  hh : Nat

def initH : Hash8 :=
  ⟨1779033703, 3144134277, 1013904242,
   2773480762, 1359893119, 2600822924,
   528734635, 1541459225⟩

/-- Big-endian byte decomposition of `v` on `n` bytes. -/
def bytesBE (n v : Nat) : List Nat :=
  (List.range n).map (fun i => Nat.shiftRight v ((n - 1 - i) * 8) % 256)

/-- Merkle–Damgård padding: 0x80, zeros, 64-bit big-endian bit length. -/
def pad (msg : List Nat) : List Nat :=
  let len := msg.length
  let r := (len + 1) % 64
  let z := if r ≤ 56 then 56 - r else 120 - r
  msg ++ [128] ++ List.replicate z 0 ++ bytesBE 8 (len * 8)

def toWords : List Nat → List Nat
  | a :: b :: c :: d :: rest => (((a * 256 + b) * 256 + c) * 256 + d) :: toWords rest
  | _ => []

def schedGo : Nat → List Nat → List Nat
  | 0, _ => []
  | Nat.succ n, win =>
    let g := fun i => win.getD i 0
    let next := add32 (add32 (s1 (g 14)) (g 9)) (add32 (s0 (g 1)) (g 0))
    next :: schedGo n (win.drop 1 ++ [next])

def schedule (w0 : List Nat) : List Nat := w0 ++ schedGo 48 w0

def compressGo : List Nat → List Nat → Hash8 → Hash8
  | k :: ks, w :: ws, st =>
    let t1 := add32 st.hh (add32 (b1 st.he) (add32 (ch st.he st.hf st.hg) (add32 k w)))
    let t2 := add32 (b0 st.ha) (maj st.ha st.hb st.hc)
    compressGo ks ws ⟨add32 t1 t2, st.ha, st.hb, st.hc, add32 st.hd t1, st.he, st.hf, st.hg⟩
  | _, _, st => st

def addH (x y : Hash8) : Hash8 :=
  ⟨add32 x.ha y.ha, add32 x.hb y.hb, add32 x.hc y.hc, add32 x.hd y.hd,
   add32 x.he y.he, add32 x.hf y.hf, add32 x.hg y.hg, add32 x.hh y.hh⟩

def processBlock (h : Hash8) (block : List Nat) : Hash8 :=
  addH h (compressGo K (schedule (toWords block)) h)

/-- Process the padded message 64 bytes at a time; the fuel argument keeps
the recursion structural (it is instantiated with the message length, which
bounds the number of blocks). -/
def processChunks : Nat → Hash8 → List Nat → Hash8
  | 0, h, _ => h
  | Nat.succ n, h, bytes =>
    if bytes.isEmpty then h
    else processChunks n (processBlock h (bytes.take 64)) (bytes.drop 64)

def hsBytes (h : Hash8) : List Nat :=
  bytesBE 4 h.ha ++ bytesBE 4 h.hb ++ bytesBE 4 h.hc ++ bytesBE 4 h.hd ++
  bytesBE 4 h.he ++ bytesBE 4 h.hf ++ bytesBE 4 h.hg ++ bytesBE 4 h.hh

def sha256Bytes (msg : List Nat) : List Nat :=
  let padded := pad msg
  hsBytes (processChunks padded.length initH padded)

def hexDigit (n : Nat) : Char := if n < 10 then Char.ofNat (48 + n) else Char.ofNat (87 + n)

def byteHex (b : Nat) : List Char := [hexDigit (b / 16), hexDigit (b % 16)]

def bytesToHex (bs : List Nat) : String := String.mk ((bs.map byteHex).flatten)

/-- `hashlib.sha256(bs).hexdigest()`. -/
def sha256Hex (bs : List Nat) : String := bytesToHex (sha256Bytes bs)

def utf8EncodeChar (c : Char) : List Nat :=
  let n := c.toNat
  if n < 128 then [n]
  else if n < 2048 then [192 + n / 64, 128 + n % 64]
  else if n < 65536 then [224 + n / 4096, 128 + (n / 64) % 64, 128 + n % 64]
  else [240 + n / 262144, 128 + (n / 4096) % 64, 128 + (n / 64) % 64, 128 + n % 64]

/-- `s.encode()` (UTF-8). -/
def utf8Encode (s : String) : List Nat := (s.toList.map utf8EncodeChar).flatten

/-- `hashlib.sha256(s.encode()).hexdigest()`. -/
def sha256HexOfString (s : String) : String := sha256Hex (utf8Encode s)

end Sha256

/-! ## Python-semantics helpers -/

namespace Py

/-- `needle_chars` occurs at the start of `hay_chars`. -/
def startsWithList : List Char → List Char → Bool
  | [], _ => true
  | _ :: _, [] => false
  | a :: as, b :: bs => a == b && startsWithList as bs

def containsList (needle : List Char) : List Char → Bool
  | [] => needle.isEmpty
  | c :: rest => startsWithList needle (c :: rest) || containsList needle rest

/-- Python's substring test `needle in hay` (the empty needle matches). -/
def pyInStr (needle hay : String) : Bool := containsList needle.toList hay.toList

def hexDigitU (n : Nat) : Char := if n < 10 then Char.ofNat (48 + n) else Char.ofNat (87 + n)

def hex4 (n : Nat) : List Char :=
  [hexDigitU (n / 4096 % 16), hexDigitU (n / 256 % 16), hexDigitU (n / 16 % 16), hexDigitU (n % 16)]

/-- One character of `json.dumps` output (default `ensure_ascii=True`). -/
def jsonEscapeChar (c : Char) : List Char :=
  let n := c.toNat
  if n = 34 then ['\\', '"']
  else if n = 92 then ['\\', '\\']
  else if n = 8 then ['\\', 'b']
  else if n = 9 then ['\\', 't']
  else if n = 10 then ['\\', 'n']
  else if n = 12 then ['\\', 'f']
  else if n = 13 then ['\\', 'r']
  else if n < 32 then '\\' :: 'u' :: hex4 n
  else if n < 127 then [c]
  else if n < 65536 then '\\' :: 'u' :: hex4 n
  else ('\\' :: 'u' :: hex4 (55296 + (n - 65536) / 1024)) ++
       ('\\' :: 'u' :: hex4 (56320 + (n - 65536) % 1024))

def jsonStr (s : String) : String :=
  "\"" ++ String.mk ((s.toList.map jsonEscapeChar).flatten) ++ "\""

/-- `json.dumps` of a string-to-string dict, in insertion order. -/
def jsonDumps (headers : List (String × String)) : String :=
  "\x7b" ++
    String.intercalate ", " (headers.map (fun p => jsonStr p.1 ++ ": " ++ jsonStr p.2)) ++
    "\x7d"

/-- Python slice `l[-n:]`. -/
def listTakeLast (n : Nat) (l : List α) : List α := l.drop (l.length - n)

/-- Python dict assignment `m[k] = v`: replace in place, else append. -/
def dictSet : List (String × α) → String → α → List (String × α)
  | [], k, v => [(k, v)]
  | (k', v') :: rest, k, v =>
    if k' == k then (k', v) :: rest else (k', v') :: dictSet rest k v

/-- Python `del m[k]` on a dict (keys are unique, so dropping every binding
of `k` from the association list models it). -/
def dictDel (m : List (String × α)) (k : String) : List (String × α) :=
  m.filter (fun p => !(p.1 == k))

/-- Python truthiness of an optional string: `None` and `""` are falsy. -/
def truthyOptStr (s : Option String) : Bool := !(s.getD "" == "")

/-- `min hi (max lo x)`, the clamp the spec's formulas are written with. -/
def clamp (lo hi x : ℚ) : ℚ := max lo (min hi x)

/-- `np.mean`. -/
def npMean (l : List ℚ) : ℚ := l.sum / l.length

/-- `np.var` (population variance). -/
def npVar (l : List ℚ) : ℚ := ((l.map (fun x => (x - npMean l) ^ 2)).sum) / l.length

end Py

/-! ## Gatekeeper inspection engine (`src/gatekeeper/api/main.py`,
`src/gatekeeper/ml/anomaly_detector.py`) -/

namespace Gatekeeper

/-- The match condition of a WAF rule.  Modelled from the spec: the `WAFRule`
pydantic class lives in `shared/events/schemas.py`, which is not among the
provided sources; the fields below are the ones `check_waf_rules` reads
(`match.type`, `match.pattern`, `match.flags["caseless"]`) plus the spec's
§3 Rule record. -/
structure MatchCond where
  mtype : String
  pattern : String
  caseless : Bool

/-- A WAF rule.  Modelled from the spec: declared in the missing
`shared/events/schemas.py`; `priority` is the spec's §3 priority integer,
`action`, `enabled` and `confidence` are the fields the provided sources
read. -/
structure WAFRule where
  priority : Nat
  action : String
  confidence : ℚ
  enabled : Bool
  matchCond : MatchCond

/-- The text WAF rules are tested against:
`f"{req.url} {req.body} {json.dumps(req.headers)}"`. -/
def combinedText (url body : String) (headers : List (String × String)) : String :=
  url ++ " " ++ body ++ " " ++ Py.jsonDumps headers

/-- The loop body of `check_waf_rules`, over the insertion-ordered rule dict,
with the running partial score as accumulator.  `reSearch` is the oracle for
`re.search(pattern, text, flags)` (regex semantics are external to this
embedding). -/
def checkGo (reSearch : String → String → Bool → Bool) (text : String) :
    List (String × WAFRule) → ℚ → ℚ × Option String
  | [], score => (score, none)
  | (rid, r) :: rest, score =>
    if !r.enabled then checkGo reSearch text rest score
    else if r.matchCond.mtype == "string" then
      if Py.pyInStr r.matchCond.pattern text then
        if r.action == "block" then (100, some rid)
        else checkGo reSearch text rest (max score 80)
      else checkGo reSearch text rest score
    else if r.matchCond.mtype == "regex" then
      if reSearch r.matchCond.pattern text r.matchCond.caseless then
        if r.action == "block" then (100, some rid)
        else checkGo reSearch text rest (max score 85)
      else checkGo reSearch text rest score
    else checkGo reSearch text rest score

/-- `check_waf_rules`: returns `(score, blocked_by_rule_id or None)`. -/
def checkWafRules (reSearch : String → String → Bool → Bool)
    (rules : List (String × WAFRule)) (text : String) : ℚ × Option String :=
  checkGo reSearch text rules 0

/-- Whether one rule matches the combined text (the per-rule test inside the
`check_waf_rules` loop; an unknown `match.type` never matches). -/
def ruleMatches (reSearch : String → String → Bool → Bool) (r : WAFRule)
    (text : String) : Bool :=
  if r.matchCond.mtype == "string" then Py.pyInStr r.matchCond.pattern text
  else if r.matchCond.mtype == "regex" then
    reSearch r.matchCond.pattern text r.matchCond.caseless
  else false

/-- The first enabled, matching, block-action rule in iteration (insertion)
order — the rule `check_waf_rules` short-circuits on. -/
def firstBlockMatch (reSearch : String → String → Bool → Bool) :
    List (String × WAFRule) → String → Option String
  | [], _ => none
  | (rid, r) :: rest, text =>
    if r.enabled && (ruleMatches reSearch r text && (r.action == "block")) then some rid
    else firstBlockMatch reSearch rest text

/-- Stable insertion of a rule into a priority-ascending list. -/
def insertRuleByPriority (x : String × WAFRule) :
    List (String × WAFRule) → List (String × WAFRule)
  | [] => [x]
  | y :: ys =>
    if x.2.priority ≤ y.2.priority then x :: y :: ys else y :: insertRuleByPriority x ys

/-- Stable sort of the rule list by ascending priority. -/
def sortRulesByPriority : List (String × WAFRule) → List (String × WAFRule)
  | [] => []
  | x :: xs => insertRuleByPriority x (sortRulesByPriority xs)

/-- The rule-match stage as the spec words it ("iterate active, enabled
rules in ascending priority order"): the same loop, but over the rules
sorted by ascending priority.  This definition follows the spec's words, to
be compared with `checkWafRules`, which follows the source. -/
def checkWafRulesPrioritySorted (reSearch : String → String → Bool → Bool)
    (rules : List (String × WAFRule)) (text : String) : ℚ × Option String :=
  checkGo reSearch text (sortRulesByPriority rules) 0

/-- `calculate_combined_score`. -/
def calculateCombinedScore (modsec ml behavioral : ℚ) : ℚ :=
  min 100 (modsec * 0.4 + ml * 100 * 0.4 + behavioral * 100 * 0.2)

/-- `ScoreData` as the inspection response carries it (the fields the
provided sources construct; the pydantic class itself is in the missing
`shared/events/schemas.py`). -/
structure ScoreData where
  modsecurity : ℚ
  mlAnomaly : ℚ
  combined : ℚ
deriving DecidableEq

/-- One entry of a per-session history window:
`{"timestamp": ..., "ml_score": ..., "features": ...}`. -/
structure Entry where
  timestamp : Nat
  mlScore : ℚ
  features : List ℚ
deriving DecidableEq

/-- Python slice `session_history[-10:]` mapped to its ML scores, as
`LSTMBehavioralClassifier.predict` builds `recent_scores`
(`sequence_length = 10`). -/
def recentScores (hist : List Entry) : List ℚ :=
  (Py.listTakeLast 10 hist).map (fun e => e.mlScore)

/-- `LSTMBehavioralClassifier.predict`. -/
def lstmPredict (hist : List Entry) : ℚ :=
  if hist.length < 3 then 0
  else
    let recent := recentScores hist
    if recent.isEmpty then 0
    else min 1 (Py.npVar recent * 2 + Py.npMean recent * 0.5)

/-- The decision part of an inspection response (the free-text `reason`
strings, which interpolate formatted floats, are not modelled). -/
structure InspectOutcome where
  action : String
  scores : ScoreData
  tags : List String
deriving DecidableEq

/-- `determine_action`: `(action, tags)`. -/
def determineAction (scores : ScoreData) (isAnomaly : Bool) (behavioral : ℚ) :
    String × List String :=
  if scores.modsecurity ≥ 90 then ("block", ["signature_match", "high_threat"])
  else if scores.combined ≥ 75 then
    ("tag_poi",
      ["poi", "high_combined_score"] ++
        (if isAnomaly then ["ml_anomaly"] else []) ++
        (if behavioral > 0.7 then ["behavioral_anomaly"] else []))
  else if isAnomaly && decide (scores.mlAnomaly ≥ 0.75) then
    ("tag_poi", ["poi", "ml_high_confidence"])
  else ("allow", ["normal"])

/-- One call of `inspect_request` for a fixed session, as a transition on
that session's history window.  `ml`, `isAnomaly` and `features` stand for
the outputs of the feature extractor and of `AnomalyDetector.predict`
(external ML state); `now` is `datetime.utcnow()`.  A missing
`session_history` key is represented by the empty window (the list is
non-empty exactly when the key exists, and `lstmPredict [] = 0` matches the
skipped branch). -/
def inspectStep (reSearch : String → String → Bool → Bool)
    (rules : List (String × WAFRule)) (hist : List Entry)
    (url body : String) (headers : List (String × String))
    (now : Nat) (ml : ℚ) (isAnomaly : Bool) (features : List ℚ) :
    InspectOutcome × List Entry :=
  let res := checkWafRules reSearch rules (combinedText url body headers)
  match res.2 with
  | some _ =>
    ({ action := "block",
       scores := { modsecurity := res.1, mlAnomaly := 0, combined := res.1 },
       tags := ["blocked", "rule_match"] }, hist)
  | none =>
    let behavioral := lstmPredict hist
    let hist1 := hist ++ [⟨now, ml, features⟩]
    let hist2 := if hist1.length > 20 then Py.listTakeLast 20 hist1 else hist1
    let scores : ScoreData :=
      { modsecurity := res.1, mlAnomaly := ml,
        combined := calculateCombinedScore res.1 ml behavioral }
    let ad := determineAction scores isAnomaly behavioral
    ({ action := ad.1, scores := scores, tags := ad.2 }, hist2)

/-- The per-call inputs of one inspection of a fixed session. -/
structure InspInput where
  url : String
  body : String
  headers : List (String × String)
  now : Nat
  ml : ℚ
  isAnomaly : Bool
  features : List ℚ

/-- The window entry one inspection appends. -/
def mkEntry (i : InspInput) : Entry := ⟨i.now, i.ml, i.features⟩

/-- The history-window component of one inspection. -/
def stepWindow (reSearch : String → String → Bool → Bool)
    (rules : List (String × WAFRule)) (w : List Entry) (i : InspInput) : List Entry :=
  (inspectStep reSearch rules w i.url i.body i.headers i.now i.ml i.isAnomaly i.features).2

/-- The session window after a sequence of inspections of one session,
starting from an absent (empty) window. -/
def runWindow (reSearch : String → String → Bool → Bool)
    (rules : List (String × WAFRule)) (inputs : List InspInput) : List Entry :=
  inputs.foldl (stepWindow reSearch rules) []

end Gatekeeper

/-! ## Switch session router (`src/switch/api/main.py`) -/

namespace Switch

/-- A stored pin (`pinned_sessions[fingerprint]`).  Times are seconds. -/
structure Pin where
  sessionId : String
  fingerprint : String
  target : String
  pinnedAt : Nat
  pinnedUntil : Nat
  reason : String
deriving DecidableEq

def productionBackend : String := "http://production-backend:8080"

def labyrinthBackend : String := "http://labyrinth:8080"

/-- `generate_fingerprint`: first 16 hex digits of
SHA-256 of `f"{session_id}:{client_ip}"`. -/
def generateFingerprint (sessionId clientIp : String) : String :=
  (Sha256.sha256HexOfString (sessionId ++ ":" ++ clientIp)).take 16

/-- The response of `pin_session` (event id not modelled). -/
structure PinSessionResponse where
  sessionId : String
  fingerprint : String
  target : String
  pinnedUntil : Nat

/-- `pin_session`: store a pin keyed by fingerprint; `pinned_until` is
`utcnow + timedelta(hours=duration_hours)`. -/
def pinSession (pins : List (String × Pin)) (sessionId clientIp reason : String)
    (durationHours : Nat) (now : Nat) :
    List (String × Pin) × PinSessionResponse :=
  let fp := generateFingerprint sessionId clientIp
  let pinnedUntil := now + durationHours * 3600
  let pin : Pin := ⟨sessionId, fp, "labyrinth", now, pinnedUntil, reason⟩
  (Py.dictSet pins fp pin, ⟨sessionId, fp, "labyrinth", pinnedUntil⟩)

/-- The body of a `/route` request. -/
structure RouteReq where
  sessionId : Option String
  clientIp : String
  userAgent : String
  cookies : List (String × String)
  jwtToken : Option String

/-- `_extract_fingerprint`: session id, then session cookie, then JWT hash,
then IP+UA hash (Python truthiness: an empty session id or token falls
through). -/
def extractFingerprint (req : RouteReq) : String :=
  if Py.truthyOptStr req.sessionId then
    generateFingerprint (req.sessionId.getD "") req.clientIp
  else if (req.cookies.lookup "session_id").isSome then
    generateFingerprint ((req.cookies.lookup "session_id").getD "") req.clientIp
  else if Py.truthyOptStr req.jwtToken then
    (Sha256.sha256HexOfString (req.jwtToken.getD "")).take 16
  else (Sha256.sha256HexOfString (req.clientIp ++ ":" ++ req.userAgent)).take 16

/-- A routing decision. -/
structure RouteResponse where
  target : String
  backendUrl : String
  preserveHost : Bool
  additionalHeaders : List (String × String)
deriving DecidableEq

/-- `get_route`: look the fingerprint up in the pin map; an expired pin is
deleted at read time and the request falls through to production; a live
pin routes to the Labyrinth decoy with the routing headers. -/
def getRoute (pins : List (String × Pin)) (req : RouteReq) (now : Nat) :
    List (String × Pin) × RouteResponse :=
  let fp := extractFingerprint req
  match pins.lookup fp with
  | some pinInfo =>
    if now > pinInfo.pinnedUntil then
      (Py.dictDel pins fp, ⟨"production", productionBackend, true, []⟩)
    else
      (pins,
       ⟨"labyrinth", labyrinthBackend, true,
        [("X-Cerberus-Routed", "labyrinth"), ("X-Original-IP", req.clientIp),
         ("X-Session-Fingerprint", fp)]⟩)
  | none => (pins, ⟨"production", productionBackend, true, []⟩)

end Switch

/-! ## Sentinel policy orchestrator and detonation severity
(`src/sentinel/api/main.py`, `src/sentinel/simulator/payload_simulator.py`) -/

namespace Sentinel

def autoApplyThreshold : ℚ := 0.90

def reviewThreshold : ℚ := 0.70

/-- `orchestrate_policy`, reduced to the decision string (the `reason`
free text and the echoed rule id and confidence are not modelled). -/
def orchestratePolicy (confidence : ℚ) (force : Bool) : String :=
  if force then "auto_applied"
  else if confidence ≥ autoApplyThreshold then "auto_applied"
  else if confidence ≥ reviewThreshold then "pending_review"
  else "logged_only"

/-- The slice of a generated rule that `apply_rule` reads. -/
structure SentinelRule where
  confidence : ℚ
  action : String

/-- What one run of the rule-apply operation did: the policy decision, how
many times the rule was pushed to Gatekeeper, and the action string of the
`rule_generated` event if one was emitted. -/
structure ApplyOutcome where
  decision : String
  pushAttempts : Nat
  recordedEvent : Option String
deriving DecidableEq

/-- `apply_rule` (the `/rule-apply` endpoint).  `pushOk` is the outcome of
the single `push_rule_to_gatekeeper` HTTP call (`False` when Gatekeeper is
unreachable: the helper catches the exception and returns `False`).
Errors are the raised `HTTPException` status codes. -/
def applyRule (rules : List (String × SentinelRule)) (ruleId : String)
    (force : Bool) (pushOk : Bool) : Except Nat ApplyOutcome :=
  match rules.lookup ruleId with
  | none => Except.error 404
  | some r =>
    let d := orchestratePolicy r.confidence force
    if d == "auto_applied" then
      if pushOk then Except.ok ⟨d, 1, some "auto_applied"⟩
      else Except.error 500
    else Except.ok ⟨d, 0, none⟩

/-- The policy step of `auto_generate_rule` (the background path): the
return value of `push_rule_to_gatekeeper` is ignored there, so the
`rule_generated` event records `auto_applied` whether or not the push
succeeded. -/
def autoGenerateApply (confidence : ℚ) (_pushOk : Bool) : ApplyOutcome :=
  let d := orchestratePolicy confidence false
  if d == "auto_applied" then ⟨d, 1, some "auto_applied"⟩
  else ⟨d, 0, some d⟩

/-- The `severity_map` of `PayloadSimulator._calculate_severity`, with its
5.0 default for unknown attack types. -/
def severityMap (t : String) : ℚ :=
  if t == "sql_injection" then 9
  else if t == "command_injection" then 10
  else if t == "xss" then 7
  else if t == "path_traversal" then 8
  else if t == "file_upload" then 8.5
  else if t == "xxe" then 9
  else 5

/-- `PayloadSimulator._calculate_severity`: base score by payload type,
scaled by the payload's confidence (default 0.5), capped at 10. -/
def calculateSeverity (verdict : String) (ptype : Option String)
    (confidence : Option ℚ) : ℚ :=
  if verdict == "exploit_improbable" then 0
  else min 10 (severityMap (ptype.getD "") * confidence.getD 0.5)

end Sentinel

/-! ## Evidence builder and retriever (`src/shared/evidence/builder.py`,
`src/shared/evidence/retriever.py`, `src/shared/storage/minio_client.py`) -/

namespace Evidence

/-- The per-object checksum `MinIOClient.upload_file` computes:
SHA-256 of the file's bytes. -/
def objectChecksum (content : List Nat) : String := Sha256.sha256Hex content

/-- The package checksum of `EvidenceBuilder.build_and_upload`:
SHA-256 of `"".join(checksums)` where the checksums come in the order the
workspace files were enumerated (by `os.walk`) and uploaded.  `files` pairs
each object name with its bytes, in enumeration order. -/
def packageChecksum (files : List (String × List Nat)) : String :=
  Sha256.sha256HexOfString
    (String.join (files.map (fun f => objectChecksum f.2)))

/-- Lexicographic order on strings (by code point), executable. -/
def charListLe : List Char → List Char → Bool
  | [], _ => true
  | _ :: _, [] => false
  | a :: as, b :: bs =>
    if a.toNat < b.toNat then true
    else if b.toNat < a.toNat then false
    else charListLe as bs

def strLe (a b : String) : Bool := charListLe a.toList b.toList

def insertByName (x : String × List Nat) :
    List (String × List Nat) → List (String × List Nat)
  | [] => [x]
  | y :: ys => if strLe x.1 y.1 then x :: y :: ys else y :: insertByName x ys

def sortByName : List (String × List Nat) → List (String × List Nat)
  | [] => []
  | x :: xs => insertByName x (sortByName xs)

/-- The package checksum as §3/§4.D of the spec word it: SHA-256 over the
concatenation of the per-object checksums *in ascending object-name order*.
This definition follows the spec's words, to be compared with
`packageChecksum`, which follows the source. -/
def packageChecksumSpecSorted (files : List (String × List Nat)) : String :=
  Sha256.sha256HexOfString
    (String.join ((sortByName files).map (fun f => objectChecksum f.2)))

/-- The checksum-validation step of `EvidenceRetriever.retrieve`, on the
downloaded objects in listing order.  Returns `(valid, compared)`, where
`compared` records whether the package checksum was recomputed and compared
at all (the `if pointer.checksum:` branch). -/
def retrieveValid (pointerChecksum : Option String)
    (downloaded : List (String × List Nat)) : Bool × Bool :=
  let downloadedChecksums := downloaded.map (fun f => objectChecksum f.2)
  if Py.truthyOptStr pointerChecksum then
    (Sha256.sha256HexOfString (String.join downloadedChecksums) ==
       pointerChecksum.getD "", true)
  else (true, false)

end Evidence

/-! ## Concrete inputs used by counterexamples and witnesses -/

namespace Demo

/-- A regex oracle for runs that only involve string-kind rules. -/
def noRegex : String → String → Bool → Bool := fun _ _ _ => false

/-- Two enabled block rules that both match; the first-inserted one has the
higher priority, so insertion order and ascending-priority order disagree. -/
def orderRules : List (String × Gatekeeper.WAFRule) :=
  [("rule_a", ⟨100, "block", 0.9, true, ⟨"string", "attack", false⟩⟩),
   ("rule_b", ⟨50, "block", 0.9, true, ⟨"string", "attack", false⟩⟩)]

def orderText : String := Gatekeeper.combinedText "http://x/?q=attack" "" []

/-- One enabled block rule whose empty string pattern matches every
request (Python's `"" in text` is always true). -/
def blockAllRules : List (String × Gatekeeper.WAFRule) :=
  [("r0", ⟨90, "block", 0.9, true, ⟨"string", "", false⟩⟩)]

/-- A neutral inspection input at time `t`. -/
def inputAt (t : Nat) : Gatekeeper.InspInput :=
  { url := "http://app/api/users", body := "", headers := [], now := t,
    ml := 0, isAnomaly := false, features := [] }

/-- Twenty inspections that are all blocked in the rule stage. -/
def blockedInputs : List Gatekeeper.InspInput := List.replicate 20 (inputAt 0)

/-- Twenty-five inspections with a monotone clock. -/
def cleanInputs : List Gatekeeper.InspInput := (List.range 25).map inputAt

/-- A two-object package whose enumeration order is not ascending
object-name order (`session.har` was walked before `metadata.json`). -/
def walkFiles : List (String × List Nat) :=
  [("ev1/session.har", [104]), ("ev1/metadata.json", [109])]

/-- An expired pin for the fingerprint of session `sess_x` at IP
`10.0.0.1`, in a pin map; it expired at t = 100. -/
def expiredPins : List (String × Switch.Pin) :=
  [(Switch.generateFingerprint "sess_x" "10.0.0.1",
    ⟨"sess_x", Switch.generateFingerprint "sess_x" "10.0.0.1", "labyrinth", 0, 100,
     "poi_detected"⟩)]

/-- The route request that derives that pin's fingerprint. -/
def expiredReq : Switch.RouteReq :=
  ⟨some "sess_x", "10.0.0.1", "Mozilla/5.0", [], none⟩

/-- One generated rule with confidence 0.95, above the auto-apply
threshold. -/
def autoRules : List (String × Sentinel.SentinelRule) :=
  [("rule_1", ⟨0.95, "block"⟩)]

/-- A three-entry session window. -/
def hist3 : List Gatekeeper.Entry :=
  [⟨0, 0, []⟩, ⟨1, 1, []⟩, ⟨2, 1, []⟩]

end Demo

/-! ## Helper lemmas -/

theorem checkGo_spec (reSearch : String → String → Bool → Bool) (text : String) :
    ∀ (rs : List (String × Gatekeeper.WAFRule)) (s : ℚ),
      (Gatekeeper.checkGo reSearch text rs s).2 =
        Gatekeeper.firstBlockMatch reSearch rs text ∧
      (∀ rid, Gatekeeper.firstBlockMatch reSearch rs text = some rid →
        Gatekeeper.checkGo reSearch text rs s = (100, some rid)) := by
  intro rs
  induction rs with
  | nil =>
    intro s
    refine ⟨rfl, ?_⟩
    intro rid h
    simp [Gatekeeper.firstBlockMatch] at h
  | cons p rest ih =>
    intro s
    obtain ⟨rid0, r⟩ := p
    cases he : r.enabled with
    | false =>
      refine ⟨?_, ?_⟩
      · rw [show Gatekeeper.checkGo reSearch text ((rid0, r) :: rest) s =
            Gatekeeper.checkGo reSearch text rest s from by
              simp [Gatekeeper.checkGo, he]]
        rw [(ih s).1]
        simp [Gatekeeper.firstBlockMatch, he]
      · intro rid h
        have h' : Gatekeeper.firstBlockMatch reSearch rest text = some rid := by
          simpa [Gatekeeper.firstBlockMatch, he] using h
        rw [show Gatekeeper.checkGo reSearch text ((rid0, r) :: rest) s =
            Gatekeeper.checkGo reSearch text rest s from by
              simp [Gatekeeper.checkGo, he]]
        exact (ih s).2 rid h'
    | true =>
      cases hm : r.matchCond.mtype == "string" with
      | true =>
        cases hin : Py.pyInStr r.matchCond.pattern text with
        | true =>
          cases hb : r.action == "block" with
          | true =>
            refine ⟨?_, ?_⟩
            · simp [Gatekeeper.checkGo, Gatekeeper.firstBlockMatch,
                Gatekeeper.ruleMatches, he, hm, hin, hb]
            · intro rid h
              have : rid0 = rid := by
                simpa [Gatekeeper.firstBlockMatch, Gatekeeper.ruleMatches,
                  he, hm, hin, hb] using h
              subst this
              simp [Gatekeeper.checkGo, he, hm, hin, hb]
          | false =>
            refine ⟨?_, ?_⟩
            · rw [show Gatekeeper.checkGo reSearch text ((rid0, r) :: rest) s =
                  Gatekeeper.checkGo reSearch text rest (max s 80) from by
                    simp [Gatekeeper.checkGo, he, hm, hin, hb]]
              rw [(ih (max s 80)).1]
              simp [Gatekeeper.firstBlockMatch, Gatekeeper.ruleMatches, he, hm, hin, hb]
            · intro rid h
              have h' : Gatekeeper.firstBlockMatch reSearch rest text = some rid := by
                simpa [Gatekeeper.firstBlockMatch, Gatekeeper.ruleMatches,
                  he, hm, hin, hb] using h
              rw [show Gatekeeper.checkGo reSearch text ((rid0, r) :: rest) s =
                  Gatekeeper.checkGo reSearch text rest (max s 80) from by
                    simp [Gatekeeper.checkGo, he, hm, hin, hb]]
              exact (ih (max s 80)).2 rid h'
        | false =>
          refine ⟨?_, ?_⟩
          · rw [show Gatekeeper.checkGo reSearch text ((rid0, r) :: rest) s =
                Gatekeeper.checkGo reSearch text rest s from by
                  simp [Gatekeeper.checkGo, he, hm, hin]]
            rw [(ih s).1]
            simp [Gatekeeper.firstBlockMatch, Gatekeeper.ruleMatches, he, hm, hin]
          · intro rid h
            have h' : Gatekeeper.firstBlockMatch reSearch rest text = some rid := by
              simpa [Gatekeeper.firstBlockMatch, Gatekeeper.ruleMatches,
                he, hm, hin] using h
            rw [show Gatekeeper.checkGo reSearch text ((rid0, r) :: rest) s =
                Gatekeeper.checkGo reSearch text rest s from by
                  simp [Gatekeeper.checkGo, he, hm, hin]]
            exact (ih s).2 rid h'
      | false =>
        cases hr : r.matchCond.mtype == "regex" with
        | true =>
          cases hre : reSearch r.matchCond.pattern text r.matchCond.caseless with
          | true =>
            cases hb : r.action == "block" with
            | true =>
              refine ⟨?_, ?_⟩
              · simp [Gatekeeper.checkGo, Gatekeeper.firstBlockMatch,
                  Gatekeeper.ruleMatches, he, hm, hr, hre, hb]
              · intro rid h
                have : rid0 = rid := by
                  simpa [Gatekeeper.firstBlockMatch, Gatekeeper.ruleMatches,
                    he, hm, hr, hre, hb] using h
                subst this
                simp [Gatekeeper.checkGo, he, hm, hr, hre, hb]
            | false =>
              refine ⟨?_, ?_⟩
              · rw [show Gatekeeper.checkGo reSearch text ((rid0, r) :: rest) s =
                    Gatekeeper.checkGo reSearch text rest (max s 85) from by
                      simp [Gatekeeper.checkGo, he, hm, hr, hre, hb]]
                rw [(ih (max s 85)).1]
                simp [Gatekeeper.firstBlockMatch, Gatekeeper.ruleMatches,
                  he, hm, hr, hre, hb]
              · intro rid h
                have h' : Gatekeeper.firstBlockMatch reSearch rest text = some rid := by
                  simpa [Gatekeeper.firstBlockMatch, Gatekeeper.ruleMatches,
                    he, hm, hr, hre, hb] using h
                rw [show Gatekeeper.checkGo reSearch text ((rid0, r) :: rest) s =
                    Gatekeeper.checkGo reSearch text rest (max s 85) from by
                      simp [Gatekeeper.checkGo, he, hm, hr, hre, hb]]
                exact (ih (max s 85)).2 rid h'
          | false =>
            refine ⟨?_, ?_⟩
            · rw [show Gatekeeper.checkGo reSearch text ((rid0, r) :: rest) s =
                  Gatekeeper.checkGo reSearch text rest s from by
                    simp [Gatekeeper.checkGo, he, hm, hr, hre]]
              rw [(ih s).1]
              simp [Gatekeeper.firstBlockMatch, Gatekeeper.ruleMatches, he, hm, hr, hre]
            · intro rid h
              have h' : Gatekeeper.firstBlockMatch reSearch rest text = some rid := by
                simpa [Gatekeeper.firstBlockMatch, Gatekeeper.ruleMatches,
                  he, hm, hr, hre] using h
              rw [show Gatekeeper.checkGo reSearch text ((rid0, r) :: rest) s =
                  Gatekeeper.checkGo reSearch text rest s from by
                    simp [Gatekeeper.checkGo, he, hm, hr, hre]]
              exact (ih s).2 rid h'
        | false =>
          refine ⟨?_, ?_⟩
          · rw [show Gatekeeper.checkGo reSearch text ((rid0, r) :: rest) s =
                Gatekeeper.checkGo reSearch text rest s from by
                  simp [Gatekeeper.checkGo, he, hm, hr]]
            rw [(ih s).1]
            simp [Gatekeeper.firstBlockMatch, Gatekeeper.ruleMatches, he, hm, hr]
          · intro rid h
            have h' : Gatekeeper.firstBlockMatch reSearch rest text = some rid := by
              simpa [Gatekeeper.firstBlockMatch, Gatekeeper.ruleMatches,
                he, hm, hr] using h
            rw [show Gatekeeper.checkGo reSearch text ((rid0, r) :: rest) s =
                Gatekeeper.checkGo reSearch text rest s from by
                  simp [Gatekeeper.checkGo, he, hm, hr]]
            exact (ih s).2 rid h'

theorem dictSet_lookup {α : Type} (k : String) (v : α) :
    ∀ m : List (String × α), (Py.dictSet m k v).lookup k = some v := by
  intro m
  induction m with
  | nil => simp [Py.dictSet, List.lookup]
  | cons p rest ih =>
    obtain ⟨k', v'⟩ := p
    cases hkk : k' == k with
    | true =>
      have hk : k' = k := eq_of_beq hkk
      subst hk
      simp [Py.dictSet, List.lookup]
    | false =>
      have hkk' : (k == k') = false := by
        refine beq_eq_false_iff_ne.mpr ?_
        intro h
        subst h
        simp at hkk
      simp [Py.dictSet, hkk, List.lookup, hkk', ih]

theorem dictDel_lookup {α : Type} (k : String) :
    ∀ m : List (String × α), (Py.dictDel m k).lookup k = none := by
  intro m
  induction m with
  | nil => rfl
  | cons p rest ih =>
    obtain ⟨k', v'⟩ := p
    cases hkk : k' == k with
    | true =>
      simpa [Py.dictDel, List.filter, hkk] using ih
    | false =>
      have hkk' : (k == k') = false := by
        refine beq_eq_false_iff_ne.mpr ?_
        intro h
        subst h
        simp at hkk
      simpa [Py.dictDel, List.filter, hkk, List.lookup, hkk'] using ih

theorem getRoute_live (pins : List (String × Switch.Pin)) (req : Switch.RouteReq)
    (now : Nat) (p : Switch.Pin)
    (hp : pins.lookup (Switch.extractFingerprint req) = some p)
    (hlive : ¬ now > p.pinnedUntil) :
    Switch.getRoute pins req now =
      (pins,
       ⟨"labyrinth", Switch.labyrinthBackend, true,
        [("X-Cerberus-Routed", "labyrinth"), ("X-Original-IP", req.clientIp),
         ("X-Session-Fingerprint", Switch.extractFingerprint req)]⟩) := by
  simp [Switch.getRoute, hp, hlive]

theorem listTakeLast_of_le {α : Type} (n : Nat) (l : List α) (h : l.length ≤ n) :
    Py.listTakeLast n l = l := by
  simp [Py.listTakeLast, Nat.sub_eq_zero_of_le h]

theorem listTakeLast_length {α : Type} (n : Nat) (l : List α) (h : n ≤ l.length) :
    (Py.listTakeLast n l).length = n := by
  simp only [Py.listTakeLast, List.length_drop]
  omega

theorem listTakeLast_suffix {α : Type} (n : Nat) (l : List α) :
    Py.listTakeLast n l <:+ l :=
  List.drop_suffix _ _

theorem listTakeLast_map {α β : Type} (f : α → β) (n : Nat) (l : List α) :
    (Py.listTakeLast n l).map f = Py.listTakeLast n (l.map f) := by
  simp [Py.listTakeLast, List.map_drop]

theorem windowStep_tail (l : List Gatekeeper.Entry) (e : Gatekeeper.Entry) :
    (if (Py.listTakeLast 20 l ++ [e]).length > 20
     then Py.listTakeLast 20 (Py.listTakeLast 20 l ++ [e])
     else Py.listTakeLast 20 l ++ [e]) = Py.listTakeLast 20 (l ++ [e]) := by
  by_cases h : l.length ≤ 19
  · rw [listTakeLast_of_le _ _ (by omega)]
    rw [if_neg (by simp; omega)]
    rw [listTakeLast_of_le _ _ (by simp; omega)]
  · have hw : (Py.listTakeLast 20 l).length = 20 := listTakeLast_length _ _ (by omega)
    rw [if_pos (by simp [hw])]
    have hwe : Py.listTakeLast 20 l ++ [e] = (l ++ [e]).drop (l.length - 20) := by
      rw [List.drop_append_eq_append_drop]
      have h0 : l.length - 20 - l.length = 0 := by omega
      rw [h0]
      rfl
    rw [hwe]
    simp only [Py.listTakeLast, List.drop_drop, List.length_drop, List.length_append]
    congr 1
    simp
    omega

theorem runWindow_spec (reSearch : String → String → Bool → Bool)
    (rules : List (String × Gatekeeper.WAFRule)) :
    ∀ (inputs : List Gatekeeper.InspInput) (l : List Gatekeeper.Entry),
      (∀ i ∈ inputs,
        (Gatekeeper.checkWafRules reSearch rules
          (Gatekeeper.combinedText i.url i.body i.headers)).2 = none) →
      inputs.foldl (Gatekeeper.stepWindow reSearch rules) (Py.listTakeLast 20 l) =
        Py.listTakeLast 20 (l ++ inputs.map Gatekeeper.mkEntry) := by
  intro inputs
  induction inputs with
  | nil =>
    intro l _
    simp
  | cons i is ih =>
    intro l hnb
    have hi := hnb i (List.mem_cons_self i is)
    have his : ∀ j ∈ is,
        (Gatekeeper.checkWafRules reSearch rules
          (Gatekeeper.combinedText j.url j.body j.headers)).2 = none :=
      fun j hj => hnb j (List.mem_cons_of_mem i hj)
    rw [List.foldl_cons]
    have hstep : Gatekeeper.stepWindow reSearch rules (Py.listTakeLast 20 l) i =
        Py.listTakeLast 20 (l ++ [Gatekeeper.mkEntry i]) := by
      simp only [Gatekeeper.stepWindow, Gatekeeper.inspectStep, hi]
      exact windowStep_tail l (Gatekeeper.mkEntry i)
    rw [hstep]
    have := ih (l ++ [Gatekeeper.mkEntry i]) his
    rw [this]
    simp

theorem sha256Bytes_length (msg : List Nat) : (Sha256.sha256Bytes msg).length = 32 := by
  simp [Sha256.sha256Bytes, Sha256.hsBytes, Sha256.bytesBE]

theorem sha256Hex_ne_empty (bs : List Nat) : Sha256.sha256Hex bs ≠ "" := by
  unfold Sha256.sha256Hex Sha256.bytesToHex
  have h32 := sha256Bytes_length bs
  cases hb : Sha256.sha256Bytes bs with
  | nil => rw [hb] at h32; simp at h32
  | cons b rest =>
    intro h
    simp [Sha256.byteHex, String.ext_iff] at h

theorem npVar_nonneg (l : List ℚ) : 0 ≤ Py.npVar l := by
  apply div_nonneg
  · apply List.sum_nonneg
    intro x hx
    obtain ⟨y, _, rfl⟩ := List.mem_map.mp hx
    exact sq_nonneg _
  · exact Nat.cast_nonneg _

theorem npMean_nonneg (l : List ℚ) (h : ∀ x ∈ l, 0 ≤ x) : 0 ≤ Py.npMean l :=
  div_nonneg (List.sum_nonneg h) (Nat.cast_nonneg _)

set_option maxRecDepth 100000

set_option maxHeartbeats 2000000

/-! ## Claim theorems -/

/-- Claim C1, counterexample: `check_waf_rules` iterates the rule dict in
insertion order, not in ascending priority order.  With two enabled,
matching block rules — `rule_a` (priority 100) inserted before `rule_b`
(priority 50) — the source returns `rule_a`, while the claimed
priority-ascending iteration would return `rule_b`. -/
theorem c1_counterexample :
    (Gatekeeper.checkWafRules Demo.noRegex Demo.orderRules Demo.orderText).2 =
      some "rule_a" ∧
    (Gatekeeper.checkWafRulesPrioritySorted Demo.noRegex Demo.orderRules
      Demo.orderText).2 = some "rule_b" ∧
    Gatekeeper.checkWafRules Demo.noRegex Demo.orderRules Demo.orderText ≠
      Gatekeeper.checkWafRulesPrioritySorted Demo.noRegex Demo.orderRules
        Demo.orderText := by
  refine ⟨by decide, by decide, by decide⟩

/-- Claim C1 (amended): in `inspect`'s rule-match stage the active enabled
rules are iterated in the rule map's insertion order, each tested against
the concatenation of URL, body, and the headers serialized as JSON, and the
first matching rule whose action is block ends the inspection with action
block, rule_score = 100 and ml_score = 0 (and leaves the session window
untouched). -/
theorem c1_rule_match_insertion_order (reSearch : String → String → Bool → Bool)
    (rules : List (String × Gatekeeper.WAFRule)) (hist : List Gatekeeper.Entry)
    (url body : String) (headers : List (String × String))
    (now : Nat) (ml : ℚ) (isAnomaly : Bool) (features : List ℚ) :
    (Gatekeeper.checkWafRules reSearch rules
        (Gatekeeper.combinedText url body headers)).2 =
      Gatekeeper.firstBlockMatch reSearch rules
        (Gatekeeper.combinedText url body headers) ∧
    (∀ rid,
      Gatekeeper.firstBlockMatch reSearch rules
          (Gatekeeper.combinedText url body headers) = some rid →
      Gatekeeper.checkWafRules reSearch rules
          (Gatekeeper.combinedText url body headers) = (100, some rid) ∧
      (Gatekeeper.inspectStep reSearch rules hist url body headers now ml isAnomaly
          features) =
        ({ action := "block",
           scores := { modsecurity := 100, mlAnomaly := 0, combined := 100 },
           tags := ["blocked", "rule_match"] }, hist)) := by
  obtain ⟨h1, h2⟩ :=
    checkGo_spec reSearch (Gatekeeper.combinedText url body headers) rules 0
  refine ⟨h1, ?_⟩
  intro rid hr
  have h3 := h2 rid hr
  have h3' : Gatekeeper.checkWafRules reSearch rules
      (Gatekeeper.combinedText url body headers) = (100, some rid) := h3
  refine ⟨h3, ?_⟩
  show Gatekeeper.inspectStep reSearch rules hist url body headers now ml isAnomaly
      features = _
  unfold Gatekeeper.inspectStep
  rw [h3']

/-- Witness for C1: on the two-rule demo map, the first-inserted block rule
`rule_a` is the one that blocks, with rule score 100 and ml score 0. -/
theorem c1_witness :
    Gatekeeper.checkWafRules Demo.noRegex Demo.orderRules Demo.orderText =
      (100, some "rule_a") ∧
    (Gatekeeper.inspectStep Demo.noRegex Demo.orderRules [] "http://x/?q=attack" "" []
        0 0 false []) =
      ({ action := "block",
         scores := { modsecurity := 100, mlAnomaly := 0, combined := 100 },
         tags := ["blocked", "rule_match"] }, []) := by
  have h :=
    (c1_rule_match_insertion_order Demo.noRegex Demo.orderRules [] "http://x/?q=attack"
      "" [] 0 0 false []).2 "rule_a" (by decide)
  exact ⟨h.1, h.2⟩

/-- Claim C2, counterexample: an inspection blocked in the rule stage
reports combined = rule_score = 100 directly, while the claimed formula
clamp₀..₁₀₀(0.4·rule + 40·ml + 20·behavioral) gives 40 there (rule = 100,
ml = 0, behavioral = 0), so "for every inspection" fails. -/
theorem c2_counterexample :
    (Gatekeeper.inspectStep Demo.noRegex Demo.blockAllRules [] "http://app/x" "" []
        0 0 false []).1.scores.modsecurity = 100 ∧
    (Gatekeeper.inspectStep Demo.noRegex Demo.blockAllRules [] "http://app/x" "" []
        0 0 false []).1.scores.mlAnomaly = 0 ∧
    (Gatekeeper.inspectStep Demo.noRegex Demo.blockAllRules [] "http://app/x" "" []
        0 0 false []).1.scores.combined = 100 ∧
    Py.clamp 0 100 (0.4 * 100 + 40 * 0 + 20 * 0) = 40 ∧
    (100 : ℚ) ≠ 40 := by
  refine ⟨by decide, by decide, by decide, ?_, by norm_num⟩
  rw [Py.clamp, min_def, max_def]
  norm_num

/-- Claim C2 (amended): for every inspection that passes the rule-blocking
stage — that is, for every call of `calculate_combined_score` — the
combined score equals clamp₀..₁₀₀(0.4·rule + 40·ml + 20·behavioral), given
rule score ∈ [0,100] and ml and behavioral scores ∈ [0,1]. -/
theorem c2_combined_formula (ms ml b : ℚ)
    (h0 : 0 ≤ ms) (h1 : ms ≤ 100) (h2 : 0 ≤ ml) (h3 : ml ≤ 1)
    (h4 : 0 ≤ b) (h5 : b ≤ 1) :
    Gatekeeper.calculateCombinedScore ms ml b =
      Py.clamp 0 100 (0.4 * ms + 40 * ml + 20 * b) := by
  have hx : 0 ≤ 0.4 * ms + 40 * ml + 20 * b := by
    have := mul_nonneg (by norm_num : (0 : ℚ) ≤ 0.4) h0
    have := mul_nonneg (by norm_num : (0 : ℚ) ≤ 40) h2
    have := mul_nonneg (by norm_num : (0 : ℚ) ≤ 20) h4
    linarith
  unfold Gatekeeper.calculateCombinedScore Py.clamp
  rw [show ms * 0.4 + ml * 100 * 0.4 + b * 100 * 0.2 = 0.4 * ms + 40 * ml + 20 * b
    from by ring]
  exact (max_eq_right (le_min (by norm_num) hx)).symm

/-- Witness for C2 (amended) at rule = 50, ml = 1/2, behavioral = 1/2. -/
theorem c2_witness :
    Gatekeeper.calculateCombinedScore 50 (1/2) (1/2) =
      Py.clamp 0 100 (0.4 * 50 + 40 * (1/2) + 20 * (1/2)) :=
  c2_combined_formula 50 (1/2) (1/2) (by norm_num) (by norm_num) (by norm_num)
    (by norm_num) (by norm_num) (by norm_num)

/-- Claim C3, counterexample: an inspection blocked in the rule stage
returns before the session-window append, so after 20 rule-blocked
inspections the window has 0 entries, not 20 — "every call to inspect
appends one entry" fails. -/
theorem c3_counterexample :
    Demo.blockedInputs.length = 20 ∧
    Gatekeeper.runWindow Demo.noRegex Demo.blockAllRules Demo.blockedInputs = [] ∧
    (Gatekeeper.runWindow Demo.noRegex Demo.blockAllRules Demo.blockedInputs).length ≠
      20 := by
  refine ⟨by decide, by decide, by decide⟩

/-- Claim C3 (amended): every call to `inspect` that is not blocked in the
rule stage appends one `{now, ml, features}` entry to the caller's session
window and truncates the window to the 20 most recent entries; hence for
every session, after N ≥ 20 such inspections (under a monotone clock) the
window is exactly the last 20 entries, with non-decreasing timestamps. -/
theorem c3_window_after_inspections (reSearch : String → String → Bool → Bool)
    (rules : List (String × Gatekeeper.WAFRule)) (inputs : List Gatekeeper.InspInput)
    (hnb : ∀ i ∈ inputs,
      (Gatekeeper.checkWafRules reSearch rules
        (Gatekeeper.combinedText i.url i.body i.headers)).2 = none)
    (hmono : List.Sorted (· ≤ ·) (inputs.map Gatekeeper.InspInput.now)) :
    Gatekeeper.runWindow reSearch rules inputs =
      Py.listTakeLast 20 (inputs.map Gatekeeper.mkEntry) ∧
    (20 ≤ inputs.length →
      (Gatekeeper.runWindow reSearch rules inputs).length = 20) ∧
    List.Sorted (· ≤ ·)
      ((Gatekeeper.runWindow reSearch rules inputs).map Gatekeeper.Entry.timestamp) := by
  have hmain : Gatekeeper.runWindow reSearch rules inputs =
      Py.listTakeLast 20 (inputs.map Gatekeeper.mkEntry) := by
    have h := runWindow_spec reSearch rules inputs [] hnb
    simpa [Gatekeeper.runWindow, Py.listTakeLast] using h
  refine ⟨hmain, ?_, ?_⟩
  · intro h20
    rw [hmain]
    exact listTakeLast_length _ _ (by simpa using h20)
  · rw [hmain, listTakeLast_map]
    have hts : (inputs.map Gatekeeper.mkEntry).map Gatekeeper.Entry.timestamp =
        inputs.map Gatekeeper.InspInput.now := by
      simp [List.map_map, Gatekeeper.mkEntry]
    rw [hts]
    exact hmono.sublist ((listTakeLast_suffix _ _).sublist)

/-- Witness for C3 (amended): 25 clean inspections with a monotone clock
leave a window of exactly 20 entries with sorted timestamps. -/
theorem c3_witness :
    (Gatekeeper.runWindow Demo.noRegex [] Demo.cleanInputs).length = 20 ∧
    List.Sorted (· ≤ ·)
      ((Gatekeeper.runWindow Demo.noRegex [] Demo.cleanInputs).map
        Gatekeeper.Entry.timestamp) := by
  have h := c3_window_after_inspections Demo.noRegex [] Demo.cleanInputs
    (by decide) (by decide)
  exact ⟨h.2.1 (by decide), h.2.2⟩

/-- Claim C4, counterexample: the builder concatenates per-object checksums
in workspace-enumeration (upload) order, not in ascending object-name
order.  On a two-object package enumerated with `session.har` before
`metadata.json`, the package checksum differs from the claimed sorted-order
checksum, and reversing the enumeration changes the checksum — so equal
file sets do not yield equal checksums across enumeration orders. -/
theorem c4_counterexample :
    Evidence.packageChecksum Demo.walkFiles ≠
      Evidence.packageChecksumSpecSorted Demo.walkFiles ∧
    Evidence.packageChecksum Demo.walkFiles ≠
      Evidence.packageChecksum Demo.walkFiles.reverse := by
  refine ⟨by decide, by decide⟩

/-- Claim C4 (amended): the package checksum is SHA-256 of the
concatenation of the per-object SHA-256 checksums in the order the objects
were enumerated and uploaded (it depends on that order); a retriever that
lists the same objects in the same order recomputes the same checksum and
reports the package valid. -/
theorem c4_checksum_roundtrip (files : List (String × List Nat)) :
    Evidence.retrieveValid (some (Evidence.packageChecksum files)) files =
      (true, true) := by
  unfold Evidence.retrieveValid
  have hne : Evidence.packageChecksum files ≠ "" := sha256Hex_ne_empty _
  have htr : Py.truthyOptStr (some (Evidence.packageChecksum files)) = true := by
    simp [Py.truthyOptStr]
    exact hne
  rw [htr]
  simp [Evidence.packageChecksum]

/-- Claim C5: a pin whose `pinned_until` instant is in the past is evicted
the first time `route` reads it: the route request that derives that pin's
fingerprint gets target `production` (never the decoy), and the pin is
removed from the pin map. -/
theorem c5_expired_pin_eviction (pins : List (String × Switch.Pin))
    (req : Switch.RouteReq) (now : Nat) (p : Switch.Pin)
    (hp : pins.lookup (Switch.extractFingerprint req) = some p)
    (hexp : now > p.pinnedUntil) :
    (Switch.getRoute pins req now).2.target = "production" ∧
    (Switch.getRoute pins req now).1.lookup (Switch.extractFingerprint req) =
      none := by
  refine ⟨?_, ?_⟩ <;> simp [Switch.getRoute, hp, hexp, dictDel_lookup]

/-- Witness for C5: a pin that expired at t = 100, read at t = 101. -/
theorem c5_witness :
    (Switch.getRoute Demo.expiredPins Demo.expiredReq 101).2.target = "production" ∧
    (Switch.getRoute Demo.expiredPins Demo.expiredReq 101).1.lookup
      (Switch.extractFingerprint Demo.expiredReq) = none :=
  c5_expired_pin_eviction Demo.expiredPins Demo.expiredReq 101
    ⟨"sess_x", Switch.generateFingerprint "sess_x" "10.0.0.1", "labyrinth", 0, 100,
      "poi_detected"⟩
    (by decide) (by decide)

/-- Claim C6: pinning computes the fingerprint as the first 16 hex digits
of SHA-256 of `session_id:client_ip`, and a route call with the same
(non-empty) session id and client IP before the TTL expires derives the
identical fingerprint and returns the decoy (Labyrinth) target with the
`X-Session-Fingerprint` header equal to that fingerprint. -/
theorem c6_pin_route_consistency (pins : List (String × Switch.Pin))
    (sid ip reason ua : String) (cookies : List (String × String))
    (jwt : Option String) (hrs now1 now2 : Nat)
    (hsid : sid ≠ "")
    (hlive : ¬ now2 > now1 + hrs * 3600) :
    (Switch.pinSession pins sid ip reason hrs now1).2.fingerprint =
      (Sha256.sha256HexOfString (sid ++ ":" ++ ip)).take 16 ∧
    (Switch.getRoute (Switch.pinSession pins sid ip reason hrs now1).1
        ⟨some sid, ip, ua, cookies, jwt⟩ now2).2.target = "labyrinth" ∧
    (Switch.getRoute (Switch.pinSession pins sid ip reason hrs now1).1
        ⟨some sid, ip, ua, cookies, jwt⟩ now2).2.additionalHeaders.lookup
        "X-Session-Fingerprint" =
      some (Switch.pinSession pins sid ip reason hrs now1).2.fingerprint := by
  have htr : Py.truthyOptStr (some sid) = true := by
    simp [Py.truthyOptStr]
    exact hsid
  have hfp : Switch.extractFingerprint ⟨some sid, ip, ua, cookies, jwt⟩ =
      Switch.generateFingerprint sid ip := by
    simp [Switch.extractFingerprint, htr]
  have hlook : ((Switch.pinSession pins sid ip reason hrs now1).1).lookup
      (Switch.generateFingerprint sid ip) =
      some ⟨sid, Switch.generateFingerprint sid ip, "labyrinth", now1,
        now1 + hrs * 3600, reason⟩ :=
    dictSet_lookup _ _ pins
  have hp : ((Switch.pinSession pins sid ip reason hrs now1).1).lookup
      (Switch.extractFingerprint ⟨some sid, ip, ua, cookies, jwt⟩) =
      some ⟨sid, Switch.generateFingerprint sid ip, "labyrinth", now1,
        now1 + hrs * 3600, reason⟩ := by
    rw [hfp]
    exact hlook
  have hroute := getRoute_live (Switch.pinSession pins sid ip reason hrs now1).1
    ⟨some sid, ip, ua, cookies, jwt⟩ now2
    ⟨sid, Switch.generateFingerprint sid ip, "labyrinth", now1, now1 + hrs * 3600,
      reason⟩ hp hlive
  have hfing : (Switch.pinSession pins sid ip reason hrs now1).2.fingerprint =
      Switch.generateFingerprint sid ip := by
    simp only [Switch.pinSession]
  refine ⟨?_, ?_, ?_⟩
  · rw [hfing]
    exact rfl
  · rw [hroute]
  · rw [hroute, hfp, hfing]
    exact rfl

/-- Witness for C6: pin `{session = sess_02, ip = 203.0.113.50,
duration_hours = 24}` at t = 0 and route the same session and IP at
t = 3600. -/
theorem c6_witness :
    (Switch.pinSession [] "sess_02" "203.0.113.50" "poi_detected" 24 0).2.fingerprint =
      (Sha256.sha256HexOfString ("sess_02" ++ ":" ++ "203.0.113.50")).take 16 ∧
    (Switch.getRoute (Switch.pinSession [] "sess_02" "203.0.113.50" "poi_detected"
        24 0).1 ⟨some "sess_02", "203.0.113.50", "sqlmap/1.0", [], none⟩
        3600).2.target = "labyrinth" ∧
    (Switch.getRoute (Switch.pinSession [] "sess_02" "203.0.113.50" "poi_detected"
        24 0).1 ⟨some "sess_02", "203.0.113.50", "sqlmap/1.0", [], none⟩
        3600).2.additionalHeaders.lookup "X-Session-Fingerprint" =
      some (Switch.pinSession [] "sess_02" "203.0.113.50" "poi_detected"
        24 0).2.fingerprint :=
  c6_pin_route_consistency [] "sess_02" "203.0.113.50" "poi_detected" "sqlmap/1.0"
    [] none 24 0 3600 (by decide) (by decide)

/-- Claim C7, counterexample: when the policy decision is `auto_applied`
(confidence 0.95) and the push to Gatekeeper fails, `apply_rule` raises
HTTP 500 — it fails rather than recording `pending_review`; the background
`auto_generate_rule` path ignores the failed push and records the event as
`auto_applied`, also not `pending_review`. -/
theorem c7_counterexample :
    Sentinel.applyRule Demo.autoRules "rule_1" false false = Except.error 500 ∧
    (Except.error 500 : Except Nat Sentinel.ApplyOutcome) ≠
      Except.ok ⟨"pending_review", 0, none⟩ ∧
    (Sentinel.autoGenerateApply 0.95 false).recordedEvent = some "auto_applied" ∧
    some "auto_applied" ≠ some "pending_review" := by
  have hd : Sentinel.orchestratePolicy (0.95 : ℚ) false = "auto_applied" := by
    unfold Sentinel.orchestratePolicy Sentinel.autoApplyThreshold
    norm_num
  refine ⟨?_, ?_, ?_, by simp⟩
  · simp [Sentinel.applyRule, Demo.autoRules, List.lookup, hd]
  · intro h
    exact Except.noConfusion h
  · simp [Sentinel.autoGenerateApply, hd]

/-- Claim C7 (amended): when the orchestrator decides `auto_applied`, the
push to the inspection engine is attempted exactly once and never retried:
if it fails, `apply_rule` fails with HTTP 500 (recording nothing); if it
succeeds, the outcome is recorded as `auto_applied`; the background
auto-generate path ignores the push result and records `auto_applied`
either way. -/
theorem c7_push_failure (rules : List (String × Sentinel.SentinelRule))
    (ruleId : String) (force : Bool) (r : Sentinel.SentinelRule)
    (hr : rules.lookup ruleId = some r)
    (hauto : Sentinel.orchestratePolicy r.confidence force = "auto_applied") :
    Sentinel.applyRule rules ruleId force false = Except.error 500 ∧
    Sentinel.applyRule rules ruleId force true =
      Except.ok ⟨"auto_applied", 1, some "auto_applied"⟩ ∧
    (Sentinel.orchestratePolicy r.confidence false = "auto_applied" →
      Sentinel.autoGenerateApply r.confidence false =
        ⟨"auto_applied", 1, some "auto_applied"⟩) := by
  refine ⟨?_, ?_, ?_⟩
  · simp [Sentinel.applyRule, hr, hauto]
  · simp [Sentinel.applyRule, hr, hauto]
  · intro h
    simp [Sentinel.autoGenerateApply, h]

/-- Witness for C7 (amended) at the demo rule, with the decision forced to
`auto_applied`. -/
theorem c7_witness :
    Sentinel.applyRule Demo.autoRules "rule_1" true false = Except.error 500 ∧
    Sentinel.applyRule Demo.autoRules "rule_1" true true =
      Except.ok ⟨"auto_applied", 1, some "auto_applied"⟩ ∧
    (Sentinel.orchestratePolicy (0.95 : ℚ) false = "auto_applied" →
      Sentinel.autoGenerateApply (0.95 : ℚ) false =
        ⟨"auto_applied", 1, some "auto_applied"⟩) :=
  c7_push_failure Demo.autoRules "rule_1" true ⟨0.95, "block"⟩
    (by simp [Demo.autoRules, List.lookup]) rfl

/-- Claim C8: with fewer than 3 window entries the behavioral score is 0;
with at least 3 entries at decision time it equals
clamp₀..₁(2·variance + 0.5·mean) of the recent (last 10) ML scores in the
window, given non-negative ML scores. -/
theorem c8_behavioral_score (hist : List Gatekeeper.Entry)
    (hpos : ∀ e ∈ hist, 0 ≤ e.mlScore) :
    (hist.length < 3 → Gatekeeper.lstmPredict hist = 0) ∧
    (3 ≤ hist.length →
      Gatekeeper.lstmPredict hist =
        Py.clamp 0 1 (2 * Py.npVar (Gatekeeper.recentScores hist) +
          0.5 * Py.npMean (Gatekeeper.recentScores hist))) := by
  constructor
  · intro h
    simp [Gatekeeper.lstmPredict, h]
  · intro h
    have hlt : ¬ hist.length < 3 := by omega
    have hlen : (Gatekeeper.recentScores hist).length =
        hist.length - (hist.length - 10) := by
      simp [Gatekeeper.recentScores, Py.listTakeLast]
    have hne : Gatekeeper.recentScores hist ≠ [] := by
      intro hnil
      rw [hnil] at hlen
      simp at hlen
      omega
    have hemp : (Gatekeeper.recentScores hist).isEmpty = false := by
      simp [List.isEmpty_iff, hne]
    have hxpos : ∀ x ∈ Gatekeeper.recentScores hist, 0 ≤ x := by
      intro x hx
      obtain ⟨e, he, rfl⟩ := List.mem_map.mp hx
      exact hpos e (List.drop_subset _ _ he)
    have hvar := npVar_nonneg (Gatekeeper.recentScores hist)
    have hmean := npMean_nonneg _ hxpos
    have hx : 0 ≤ 2 * Py.npVar (Gatekeeper.recentScores hist) +
        0.5 * Py.npMean (Gatekeeper.recentScores hist) := by
      have h2 := mul_nonneg (by norm_num : (0 : ℚ) ≤ 2) hvar
      have h5 := mul_nonneg (by norm_num : (0 : ℚ) ≤ 0.5) hmean
      linarith
    simp only [Gatekeeper.lstmPredict, if_neg hlt, hemp, Bool.false_eq_true,
      if_false]
    rw [show Py.npVar (Gatekeeper.recentScores hist) * 2 +
        Py.npMean (Gatekeeper.recentScores hist) * 0.5 =
        2 * Py.npVar (Gatekeeper.recentScores hist) +
          0.5 * Py.npMean (Gatekeeper.recentScores hist) from by ring]
    exact (max_eq_right (le_min (by norm_num) hx)).symm

/-- Witness for C8 at a three-entry window with scores 0, 1, 1. -/
theorem c8_witness :
    Gatekeeper.lstmPredict Demo.hist3 =
      Py.clamp 0 1 (2 * Py.npVar (Gatekeeper.recentScores Demo.hist3) +
        0.5 * Py.npMean (Gatekeeper.recentScores Demo.hist3)) :=
  (c8_behavioral_score Demo.hist3 (by decide)).2 (by decide)

/-- Claim C9, counterexample: the severity base for `path_traversal` is 8.0
in `_calculate_severity`, not the claimed 8.5: at confidence 1 the severity
is 8. -/
theorem c9_counterexample :
    Sentinel.calculateSeverity "exploit_possible" (some "path_traversal") (some 1) =
      8 ∧
    (8 : ℚ) ≠ 8.5 := by
  constructor
  · rw [show Sentinel.calculateSeverity "exploit_possible" (some "path_traversal")
        (some 1) = min 10 (8 * 1) from rfl, min_def]
    norm_num
  · norm_num

/-- Claim C9 (amended): for a detonation with verdict `exploit_possible`,
severity equals the attack-type base score — command injection 10, SQL
injection 9, path traversal 8 (not 8.5), XXE 9, file upload 8.5, XSS 7 —
multiplied by the payload's confidence and capped at 10. -/
theorem c9_severity_table (conf : ℚ) :
    Sentinel.calculateSeverity "exploit_possible" (some "command_injection")
      (some conf) = min 10 (10 * conf) ∧
    Sentinel.calculateSeverity "exploit_possible" (some "sql_injection")
      (some conf) = min 10 (9 * conf) ∧
    Sentinel.calculateSeverity "exploit_possible" (some "path_traversal")
      (some conf) = min 10 (8 * conf) ∧
    Sentinel.calculateSeverity "exploit_possible" (some "xxe")
      (some conf) = min 10 (9 * conf) ∧
    Sentinel.calculateSeverity "exploit_possible" (some "file_upload")
      (some conf) = min 10 (8.5 * conf) ∧
    Sentinel.calculateSeverity "exploit_possible" (some "xss")
      (some conf) = min 10 (7 * conf) :=
  ⟨rfl, rfl, rfl, rfl, rfl, rfl⟩

/-- Claim C10: a pointer with a missing or empty checksum is accepted as
valid without the package checksum being recomputed or compared (Python
truthiness of `pointer.checksum`). -/
theorem c10_missing_checksum_valid (downloaded : List (String × List Nat)) :
    Evidence.retrieveValid none downloaded = (true, false) ∧
    Evidence.retrieveValid (some "") downloaded = (true, false) :=
  ⟨rfl, rfl⟩
